import Mathlib

/-!
Verification of the `cargo-wix` core library (`src/lib.rs`): a shallow
embedding of its data model (TOML values, the `Error` taxonomy, `Platform`,
the `Wix` builder) and of the `Wix::run` pipeline, with external processes
modelled by an environment that records, for each stage, the outcome of
`Command::status().ok()`.
-/

deriving instance DecidableEq for Except

namespace CargoWix

/-- A TOML value, as the subset of `toml::Value` exercised by `lib.rs`:
strings, integers, booleans, arrays and tables.  Tables are association
lists keyed by strings. -/
inductive Value where
  | str (s : String)
  | int (n : Int)
  | bool (b : Bool)
  | arr (vs : List Value)
  | table (kvs : List (String × Value))
deriving Repr

/-- `toml::Value::get(key)`: on a table, look up the key; on anything else,
`None` (mirrors the `Index` impl used at lines 198, 205, 212, 218, 227). -/
def Value.get (v : Value) (k : String) : Option Value :=
  match v with
  | .table kvs => kvs.lookup k
  | _ => none

/-- `toml::Value::as_table`: `Some` of the key-value list when the value is
a table, else `None`. -/
def Value.as_table (v : Value) : Option (List (String × Value)) :=
  match v with
  | .table kvs => some kvs
  | _ => none

/-- `toml::Value::as_str`: `Some` of the string when the value is a string,
else `None`. -/
def Value.as_str (v : Value) : Option String :=
  match v with
  | .str s => some s
  | _ => none

/-- `toml::Value::as_array`: `Some` of the elements when the value is an
array, else `None`. -/
def Value.as_array (v : Value) : Option (List Value) :=
  match v with
  | .arr vs => some vs
  | _ => none

/-- Table lookup as used by `t.get("version")` on a `toml::value::Table`. -/
def tableGet (kvs : List (String × Value)) (k : String) : Option Value :=
  kvs.lookup k

/-- Payload of `Error::Io` (`std::io::Error`), kept as a message string. -/
structure IoErr where
  msg : String
deriving Repr, DecidableEq

/-- Payload of `Error::Toml` (`toml::de::Error`), kept as a message string. -/
structure TomlErr where
  msg : String
deriving Repr, DecidableEq

/-- The `Error` enum of `lib.rs` (lines 41-59). -/
inductive Error where
  | Build (msg : String)
  | Compile (msg : String)
  | Generic (msg : String)
  | Io (err : IoErr)
  | Link (msg : String)
  | Manifest (var : String)
  | Sign (msg : String)
  | Toml (err : TomlErr)
deriving Repr, DecidableEq

/-- `Error::code` (lines 67-78): the exit code of each error variant. -/
def Error.code (e : Error) : Int :=
  match e with
  | .Build _ => 1
  | .Compile _ => 2
  | .Generic _ => 3
  | .Io _ => 4
  | .Link _ => 5
  | .Manifest _ => 6
  | .Sign _ => 7
  | .Toml _ => 8

/-- The eight error kinds, without payloads, used to state that `Error.code`
separates variants. -/
inductive ErrorKind where
  | Build | Compile | Generic | Io | Link | Manifest | Sign | Toml
deriving Repr, DecidableEq, Fintype

/-- The variant tag of an `Error`. -/
def Error.kind (e : Error) : ErrorKind :=
  match e with
  | .Build _ => .Build
  | .Compile _ => .Compile
  | .Generic _ => .Generic
  | .Io _ => .Io
  | .Link _ => .Link
  | .Manifest _ => .Manifest
  | .Sign _ => .Sign
  | .Toml _ => .Toml

/-- The `Platform` enum (lines 131-135). -/
inductive Platform where
  | X86
  | X64
deriving Repr, DecidableEq, Fintype

/-- `Platform::arch` (lines 138-143). -/
def Platform.arch (p : Platform) : String :=
  match p with
  | .X86 => "i686"
  | .X64 => "x86_64"

/-- The `fmt::Display` impl for `Platform` (lines 146-153). -/
def Platform.display (p : Platform) : String :=
  match p with
  | .X86 => "x86"
  | .X64 => "x64"

/-- `Platform::default` (lines 155-163).  The compile-time host flag
`cfg!(target_arch = "x86_64")` is made an explicit boolean parameter. -/
def Platform.defaultFor (target_arch_is_x86_64 : Bool) : Platform :=
  if target_arch_is_x86_64 then Platform.X64 else Platform.X86

/-- The `Wix` builder struct (lines 165-168). -/
structure Wix where
  sign : Bool
  capture_output : Bool
deriving Repr, DecidableEq, Fintype

/-- `Wix::new` (lines 171-176). -/
def Wix.new : Wix :=
  { sign := false, capture_output := true }

/-- The builder method `Wix::capture_output` (lines 178-181); renamed since
the field projection already carries the source name. -/
def Wix.set_capture_output (w : Wix) (c : Bool) : Wix :=
  { w with capture_output := c }

/-- The builder method `Wix::sign` (lines 183-186); renamed since the field
projection already carries the source name. -/
def Wix.set_sign (w : Wix) (s : Bool) : Wix :=
  { w with sign := s }

/-- `impl Default for Wix` (lines 346-350). -/
def Wix.default : Wix :=
  Wix.new

/-- Extraction of `package.version` (lines 197-202), before the
`ok_or(Error::Manifest("version"))`. -/
def pkg_version (v : Value) : Option String :=
  ((((v.get "package").bind Value.as_table).bind
    (fun t => tableGet t "version")).bind Value.as_str)

/-- Extraction of `package.name` (lines 204-209). -/
def pkg_name (v : Value) : Option String :=
  ((((v.get "package").bind Value.as_table).bind
    (fun t => tableGet t "name")).bind Value.as_str)

/-- Extraction of `package.description` (lines 211-216). -/
def pkg_description (v : Value) : Option String :=
  ((((v.get "package").bind Value.as_table).bind
    (fun t => tableGet t "description")).bind Value.as_str)

/-- Extraction of `package.authors[0]` (lines 217-224): the authors array is
fetched, its first element taken, and that element read as a string. -/
def pkg_author (v : Value) : Option String :=
  (((((v.get "package").bind Value.as_table).bind
    (fun t => tableGet t "authors")).bind Value.as_array).bind
      (fun a => a.get? 0)).bind Value.as_str

/-- Extraction of the optional `bin.name` override (lines 226-230), before
the `unwrap_or(pkg_name)`. -/
def bin_override (v : Value) : Option String :=
  ((((v.get "bin").bind Value.as_table).bind
    (fun t => tableGet t "name")).bind Value.as_str)

/-- The binary name used by the pipeline (line 231): the `bin.name`
override when present, otherwise the package name. -/
def bin_name (v : Value) (pkg : String) : String :=
  (bin_override v).getD pkg

/-- The five manifest-derived strings threaded into the pipeline. -/
structure ManifestFields where
  version : String
  name : String
  description : String
  author : String
  binName : String
deriving Repr, DecidableEq

/-- The manifest-reading in `Wix::run` (lines 197-231): each required field
in order `version`, `name`, `description`, `authors`, failing with
`Error::Manifest` of the field's key, then the best-effort `bin.name`. -/
def readManifest (v : Value) : Except Error ManifestFields :=
  match pkg_version v with
  | none => .error (.Manifest "version")
  | some ver =>
    match pkg_name v with
    | none => .error (.Manifest "name")
    | some nm =>
      match pkg_description v with
      | none => .error (.Manifest "description")
      | some desc =>
        match pkg_author v with
        | none => .error (.Manifest "authors")
        | some auth =>
          .ok { version := ver, name := nm, description := desc,
                author := auth, binName := bin_name v nm }

/-- The four required manifest fields, in the order `Wix::run` extracts
them. -/
inductive ManifestField where
  | version | name | description | authors
deriving Repr, DecidableEq

/-- The manifest key carried by `Error::Manifest` for each field. -/
def ManifestField.key (f : ManifestField) : String :=
  match f with
  | .version => "version"
  | .name => "name"
  | .description => "description"
  | .authors => "authors"

/-- The first required field, in extraction order, whose lookup fails
(missing key, wrong type, or empty authors array). -/
def firstMissing (v : Value) : Option ManifestField :=
  if (pkg_version v).isNone then some .version
  else if (pkg_name v).isNone then some .name
  else if (pkg_description v).isNone then some .description
  else if (pkg_author v).isNone then some .authors
  else none

/-- A path, as the sequence of components pushed onto a `PathBuf`. -/
def PathB := List String

/-- `PathBuf::push`. -/
def PathB.push (p : PathB) (c : String) : PathB :=
  List.append p [c]

/-- `PathBuf::from`. -/
def PathB.from1 (c : String) : PathB :=
  [c]

/-- The final installer path `main_msi` (lines 249-255): under
`target/wix`, the file name is the literal string
`<name>-<version>-<arch>.msi`, deliberately not built with
`set_extension` so the dotted version survives. -/
def main_msi (pkgName pkgVersion : String) (platform : Platform) : PathB :=
  ((PathB.from1 "target").push "wix").push
    (pkgName ++ "-" ++ pkgVersion ++ "-" ++ platform.arch ++ ".msi")

/-- The four pipeline stages of `Wix::run`. -/
inductive Stage where
  | build | compile | link | sign
deriving Repr, DecidableEq, Fintype

/-- The fixed error each stage returns on a non-zero exit status
(lines 272, 296, 317, 338). -/
def stageError (s : Stage) : Error :=
  match s with
  | .build => .Build "Failed to build the release executable"
  | .compile => .Compile "Failed to compile the installer"
  | .link => .Link "Failed to link the installer"
  | .sign => .Sign "Failed to sign the installer"

/-- The outcomes of `Command::status().ok()` for each stage's external
process: `none` when spawning/waiting failed, `some b` when an exit status
was obtained with `success()` equal to `b`. -/
structure StageEnv where
  build : Option Bool
  compile : Option Bool
  link : Option Bool
  sign : Option Bool
deriving Repr, DecidableEq, Fintype

/-- The status outcome a `StageEnv` assigns to a stage. -/
def StageEnv.statusOf (env : StageEnv) (s : Stage) : Option Bool :=
  match s with
  | .build => env.build
  | .compile => env.compile
  | .link => env.link
  | .sign => env.sign

/-- Replace one stage's status outcome in a `StageEnv`. -/
def StageEnv.setStage (env : StageEnv) (s : Stage) (r : Option Bool) : StageEnv :=
  match s with
  | .build => { env with build := r }
  | .compile => { env with compile := r }
  | .link => { env with link := r }
  | .sign => { env with sign := r }

/-- One `if let Some(status) = ... .ok() { if !status.success() { return
Err(e) } }` block: an obtained failing status returns the stage error,
an obtained passing status or a swallowed spawn failure continues. -/
def stageStep (st : Option Bool) (e : Error) : Except Error Unit :=
  match st with
  | some ok => if ok then .ok () else .error e
  | none => .ok ()

/-- The build/compile/link/sign sequence of `Wix::run` (lines 257-342),
run after manifest reading.  The returned list records the stages whose
external command was spawned, in order; the sign stage runs only when
`self.sign` is set. -/
def Wix.runPipeline (w : Wix) (env : StageEnv) : Except Error Unit × List Stage :=
  match stageStep env.build (stageError .build) with
  | .error e => (.error e, [.build])
  | .ok _ =>
    match stageStep env.compile (stageError .compile) with
    | .error e => (.error e, [.build, .compile])
    | .ok _ =>
      match stageStep env.link (stageError .link) with
      | .error e => (.error e, [.build, .compile, .link])
      | .ok _ =>
        if w.sign then
          match stageStep env.sign (stageError .sign) with
          | .error e => (.error e, [.build, .compile, .link, .sign])
          | .ok _ => (.ok (), [.build, .compile, .link, .sign])
        else (.ok (), [.build, .compile, .link])

/-- `Wix::run` (lines 190-343) over a parsed manifest value and a stage
environment: read the manifest fields, then drive the pipeline.  A manifest
error aborts before any stage is spawned. -/
def Wix.run (w : Wix) (v : Value) (env : StageEnv) : Except Error Unit × List Stage :=
  match readManifest v with
  | .error e => (.error e, [])
  | .ok _ => w.runPipeline env

/-- The first stage, in execution order, whose obtained exit status is a
failure, taking into account that the sign stage only runs when `w.sign`. -/
def firstFailing (w : Wix) (env : StageEnv) : Option Stage :=
  if env.build = some false then some .build
  else if env.compile = some false then some .compile
  else if env.link = some false then some .link
  else if w.sign ∧ env.sign = some false then some .sign
  else none

/-- The prefix of stages spawned up to and including `s`. -/
def stagesUpTo (s : Stage) : List Stage :=
  match s with
  | .build => [.build]
  | .compile => [.build, .compile]
  | .link => [.build, .compile, .link]
  | .sign => [.build, .compile, .link, .sign]

/-- The full trace when no stage fails. -/
def fullTrace (w : Wix) : List Stage :=
  if w.sign then [.build, .compile, .link, .sign] else [.build, .compile, .link]

/-- Modelled from the spec: the bundled `template.wxs` document embedded by
`include_str!` is not among the provided sources; per the spec it is a
fixed, non-empty example installer-definition document. -/
def TEMPLATE : String :=
  "<?xml version='1.0'?><Wix><Product Id='*'/></Wix>"

/-- `print_template` (lines 36-39) with the write to standard output made
explicit: the result is `Ok` when the write succeeds, `Error::Io` is
propagated otherwise, and the second component lists the strings written. -/
def print_template (writeOk : Bool) : Except Error Unit × List String :=
  if writeOk then (.ok (), [TEMPLATE])
  else (.error (.Io { msg := "write failed" }), [])

/-! ## Helper lemmas and concrete inputs -/

/-- A well-formed manifest: all four required `package` fields present,
no `bin` table. -/
def exampleManifest : Value :=
  .table [("package", .table
    [("version", .str "0.1.0"), ("name", .str "demo"),
     ("description", .str "a demo"), ("authors", .arr [.str "Jane Doe"])])]

/-- The fields `readManifest` extracts from `exampleManifest`. -/
def exampleFields : ManifestFields :=
  { version := "0.1.0", name := "demo", description := "a demo",
    author := "Jane Doe", binName := "demo" }

/-- A manifest whose `authors` array is empty; everything else present. -/
def emptyAuthorsManifest : Value :=
  .table [("package", .table
    [("version", .str "0.1.0"), ("name", .str "demo"),
     ("description", .str "a demo"), ("authors", .arr [])])]

/-- Every external process reports a successful exit status. -/
def envAllOk : StageEnv :=
  { build := some true, compile := some true, link := some true, sign := some true }

/-- The build process reports a failing exit status; the rest succeed. -/
def envBuildFails : StageEnv :=
  { build := some false, compile := some true, link := some true, sign := some true }

/-- Spawning the build process fails (`status()` returns `Err`); the rest
report success. -/
def envBuildSpawnFails : StageEnv :=
  { build := none, compile := some true, link := some true, sign := some true }

lemma runPipeline_firstFailing :
    ∀ (w : Wix) (env : StageEnv),
      w.runPipeline env = (match firstFailing w env with
        | some s => (Except.error (stageError s), stagesUpTo s)
        | none => (Except.ok (), fullTrace w)) := by decide

lemma runPipeline_setStage_of_none :
    ∀ (w : Wix) (env : StageEnv) (s : Stage), env.statusOf s = none →
      w.runPipeline env = w.runPipeline (env.setStage s (some true)) := by decide

lemma runPipeline_error_status :
    ∀ (w : Wix) (env : StageEnv) (s : Stage),
      (w.runPipeline env).1 = Except.error (stageError s) →
      env.statusOf s = some false := by decide

lemma runPipeline_no_sign :
    ∀ (w : Wix) (env : StageEnv), w.sign = false →
      Stage.sign ∉ (w.runPipeline env).2 := by decide

lemma runPipeline_sign_irrelevant :
    ∀ (w : Wix) (env : StageEnv) (b : Option Bool), w.sign = false →
      w.runPipeline env = w.runPipeline (env.setStage Stage.sign b) := by decide

lemma runPipeline_ok_after_link :
    ∀ (w : Wix) (env : StageEnv), w.sign = false →
      env.build ≠ some false → env.compile ≠ some false → env.link = some true →
      w.runPipeline env = (Except.ok (), [Stage.build, Stage.compile, Stage.link]) := by
  decide

/-- `readManifest` can only fail with a `Manifest` error. -/
lemma readManifest_error_manifest (v : Value) (e : Error)
    (h : readManifest v = .error e) : ∃ k, e = Error.Manifest k := by
  unfold readManifest at h
  rcases hv : pkg_version v with _ | ver <;> rw [hv] at h
  · exact ⟨"version", by injection h with h; exact h.symm⟩
  rcases hn : pkg_name v with _ | nm <;> rw [hn] at h
  · exact ⟨"name", by injection h with h; exact h.symm⟩
  rcases hd : pkg_description v with _ | d <;> rw [hd] at h
  · exact ⟨"description", by injection h with h; exact h.symm⟩
  rcases ha : pkg_author v with _ | a <;> rw [ha] at h
  · exact ⟨"authors", by injection h with h; exact h.symm⟩
  · exact absurd h (by simp)

/-- When no required field is missing, `readManifest` succeeds and returns
the extracted fields. -/
lemma readManifest_ok_of_complete (v : Value) (h : firstMissing v = none) :
    ∃ ver nm d a, pkg_version v = some ver ∧ pkg_name v = some nm ∧
      pkg_description v = some d ∧ pkg_author v = some a ∧
      readManifest v = .ok ⟨ver, nm, d, a, bin_name v nm⟩ := by
  unfold firstMissing at h
  split_ifs at h with h1 h2 h3 h4
  simp only [Option.isNone_iff_eq_none] at h1 h2 h3 h4
  obtain ⟨ver, hv⟩ := Option.ne_none_iff_exists'.mp h1
  obtain ⟨nm, hn⟩ := Option.ne_none_iff_exists'.mp h2
  obtain ⟨d, hd⟩ := Option.ne_none_iff_exists'.mp h3
  obtain ⟨a, ha⟩ := Option.ne_none_iff_exists'.mp h4
  exact ⟨ver, nm, d, a, hv, hn, hd, ha, by unfold readManifest; rw [hv, hn, hd, ha]⟩

/-! ## The claims -/

/-- C7: `Platform` is a two-valued enumeration; `X86` has arch tag
`"i686"` and display name `"x86"`, `X64` has arch tag `"x86_64"` and
display name `"x64"`; the default is `X64` on a 64-bit host build target
and `X86` otherwise. -/
theorem platform_model :
    Platform.arch .X86 = "i686" ∧ Platform.arch .X64 = "x86_64" ∧
    Platform.display .X86 = "x86" ∧ Platform.display .X64 = "x64" ∧
    Platform.defaultFor true = .X64 ∧ Platform.defaultFor false = .X86 ∧
    ∀ p : Platform, p = .X86 ∨ p = .X64 := by
  refine ⟨rfl, rfl, rfl, rfl, rfl, rfl, ?_⟩
  intro p
  cases p
  · exact Or.inl rfl
  · exact Or.inr rfl

/-- C8: `Error.code` maps Build to 1, Compile to 2, Generic to 3, Io to 4,
Link to 5, Manifest to 6, Sign to 7 and Toml to 8; every code is positive
and equal codes imply equal variants. -/
theorem error_code_model :
    (∀ s, (Error.Build s).code = 1) ∧
    (∀ s, (Error.Compile s).code = 2) ∧
    (∀ s, (Error.Generic s).code = 3) ∧
    (∀ e, (Error.Io e).code = 4) ∧
    (∀ s, (Error.Link s).code = 5) ∧
    (∀ s, (Error.Manifest s).code = 6) ∧
    (∀ s, (Error.Sign s).code = 7) ∧
    (∀ e, (Error.Toml e).code = 8) ∧
    (∀ e : Error, 0 < e.code) ∧
    (∀ e₁ e₂ : Error, e₁.code = e₂.code → e₁.kind = e₂.kind) := by
  refine ⟨fun _ => rfl, fun _ => rfl, fun _ => rfl, fun _ => rfl, fun _ => rfl,
    fun _ => rfl, fun _ => rfl, fun _ => rfl, ?_, ?_⟩
  · intro e
    cases e <;> norm_num [Error.code]
  · intro e₁ e₂ h
    cases e₁ <;> cases e₂ <;> simp_all [Error.code, Error.kind]

/-- Witness for C8 at two concrete `Manifest` errors with equal codes. -/
theorem error_code_model_witness :
    (Error.Manifest "version").code = (Error.Manifest "name").code ∧
    (Error.Manifest "version").kind = (Error.Manifest "name").kind :=
  ⟨rfl, error_code_model.2.2.2.2.2.2.2.2.2
    (Error.Manifest "version") (Error.Manifest "name") rfl⟩

/-- C10: each builder method sets only its own field — `set_capture_output`
leaves `sign` unchanged and `set_sign` leaves `capture_output` unchanged —
and `Wix.new` starts with `sign = false`, `capture_output = true`. -/
theorem wix_builder_frame :
    Wix.new.sign = false ∧ Wix.new.capture_output = true ∧
    (∀ (w : Wix) (c : Bool),
      (w.set_capture_output c).sign = w.sign ∧
      (w.set_capture_output c).capture_output = c) ∧
    (∀ (w : Wix) (s : Bool),
      (w.set_sign s).capture_output = w.capture_output ∧
      (w.set_sign s).sign = s) :=
  ⟨rfl, rfl, fun _ _ => ⟨rfl, rfl⟩, fun _ _ => ⟨rfl, rfl⟩⟩

/-- C4: the installer path is `target/wix` plus the literal file name
`<name>-<version>-<arch>.msi`; for package `demo`, version `2.1.0` and the
64-bit platform the file name is exactly `demo-2.1.0-x86_64.msi`. -/
theorem main_msi_literal :
    (∀ (n v : String) (p : Platform),
      main_msi n v p = ["target", "wix", n ++ "-" ++ v ++ "-" ++ p.arch ++ ".msi"]) ∧
    main_msi "demo" "2.1.0" Platform.X64 = ["target", "wix", "demo-2.1.0-x86_64.msi"] := by
  exact ⟨fun _ _ _ => rfl, rfl⟩

/-- C9: `print_template` emits exactly the fixed bundled template, which is
non-empty, and returns `Ok` exactly when the write succeeds; the emitted
content is the constant `TEMPLATE`, hence identical across invocations. -/
theorem print_template_model :
    TEMPLATE ≠ "" ∧
    print_template true = (Except.ok (), [TEMPLATE]) ∧
    (∀ b : Bool, (print_template b).1 = Except.ok () ↔ b = true) := by
  refine ⟨by decide, rfl, ?_⟩
  intro b
  cases b <;> simp [print_template]

/-- C1: once the manifest is read, `run` is `Ok` exactly when no executed
stage's obtained exit status is a failure; otherwise it returns the first
failing stage's error and the spawned stages stop at that stage.  In
particular a failing build exit status yields `Error.Build` with only the
build stage spawned — compile, link and sign never run. -/
theorem run_first_failure (w : Wix) (v : Value) (env : StageEnv)
    (fields : ManifestFields) (hm : readManifest v = Except.ok fields) :
    ((Wix.run w v env).1 = Except.ok () ↔ firstFailing w env = none) ∧
    (firstFailing w env = none → Wix.run w v env = (Except.ok (), fullTrace w)) ∧
    (∀ s, firstFailing w env = some s →
      Wix.run w v env = (Except.error (stageError s), stagesUpTo s)) ∧
    (env.build = some false →
      Wix.run w v env =
        (Except.error (Error.Build "Failed to build the release executable"),
         [Stage.build])) := by
  have hr : Wix.run w v env = w.runPipeline env := by
    simp [Wix.run, hm]
  have hp := runPipeline_firstFailing w env
  rw [hr, hp]
  rcases hff : firstFailing w env with _ | s
  · constructor
    · exact ⟨fun _ => rfl, fun _ => rfl⟩
    constructor
    · intro _
      rfl
    constructor
    · intro s hs
      cases hs
    · intro hb
      exfalso
      unfold firstFailing at hff
      rw [if_pos hb] at hff
      cases hff
  · constructor
    · constructor
      · intro hok
        exfalso
        have hbad : (Except.error (stageError s) : Except Error Unit) = Except.ok () := hok
        cases hbad
      · intro hc
        cases hc
    constructor
    · intro hc
      cases hc
    constructor
    · intro s' hs'
      injection hs' with hs'
      subst hs'
      rfl
    · intro hb
      have hb' : firstFailing w env = some Stage.build := by
        unfold firstFailing
        rw [if_pos hb]
      rw [hff] at hb'
      injection hb' with hb'
      subst hb'
      rfl

/-- Witness for C1: with a complete manifest and a build process that
exits with failure, `run` returns `Error.Build` and only the build stage
was spawned. -/
theorem run_first_failure_witness :
    readManifest exampleManifest = Except.ok exampleFields ∧
    Wix.run Wix.new exampleManifest envBuildFails =
      (Except.error (Error.Build "Failed to build the release executable"),
       [Stage.build]) :=
  ⟨rfl,
   (run_first_failure Wix.new exampleManifest envBuildFails exampleFields rfl).2.2.2 rfl⟩

/-- C2: a stage whose spawn/wait fails (`status()` returns `Err`) is
swallowed — the run proceeds exactly as if that stage had exited
successfully — and a stage error is only ever produced from an obtained
failing exit status. -/
theorem spawn_failure_swallowed (w : Wix) (v : Value) (env : StageEnv) (s : Stage)
    (h : env.statusOf s = none) :
    Wix.run w v env = Wix.run w v (env.setStage s (some true)) ∧
    (∀ s' : Stage, (Wix.run w v env).1 = Except.error (stageError s') →
      env.statusOf s' = some false) := by
  constructor
  · unfold Wix.run
    cases hrm : readManifest v with
    | error e => rfl
    | ok f => exact runPipeline_setStage_of_none w env s h
  · intro s' hs'
    unfold Wix.run at hs'
    cases hrm : readManifest v with
    | error e =>
        exfalso
        obtain ⟨k, hk⟩ := readManifest_error_manifest v e hrm
        rw [hrm, hk] at hs'
        have hms : Error.Manifest k = stageError s' := by
          simpa using hs'
        cases s' <;> simp [stageError] at hms
    | ok f =>
        rw [hrm] at hs'
        exact runPipeline_error_status w env s' hs'

/-- Witness for C2: a failed build spawn leaves the run identical to one
in which the build stage exits successfully. -/
theorem spawn_failure_swallowed_witness :
    envBuildSpawnFails.statusOf Stage.build = none ∧
    Wix.run Wix.new exampleManifest envBuildSpawnFails =
      Wix.run Wix.new exampleManifest
        (envBuildSpawnFails.setStage Stage.build (some true)) :=
  ⟨rfl,
   (spawn_failure_swallowed Wix.new exampleManifest envBuildSpawnFails
      Stage.build rfl).1⟩

/-- C3: when the first required-field extraction that fails is `f`
(missing, wrong-typed, or an empty authors array), `run` fails with
`Error.Manifest` carrying exactly that field's key, before any stage is
spawned. -/
theorem manifest_missing_field (v : Value) (f : ManifestField)
    (w : Wix) (env : StageEnv) (h : firstMissing v = some f) :
    readManifest v = Except.error (Error.Manifest f.key) ∧
    Wix.run w v env = (Except.error (Error.Manifest f.key), []) := by
  have hrm : readManifest v = Except.error (Error.Manifest f.key) := by
    unfold firstMissing at h
    split_ifs at h with h1 h2 h3 h4
    · simp only [Option.some.injEq] at h
      subst h
      rw [Option.isNone_iff_eq_none] at h1
      simp [readManifest, h1, ManifestField.key]
    · simp only [Option.some.injEq] at h
      subst h
      rw [Option.isNone_iff_eq_none] at h2
      simp only [Option.isNone_iff_eq_none] at h1
      obtain ⟨ver, hv⟩ := Option.ne_none_iff_exists'.mp h1
      simp [readManifest, hv, h2, ManifestField.key]
    · simp only [Option.some.injEq] at h
      subst h
      rw [Option.isNone_iff_eq_none] at h3
      simp only [Option.isNone_iff_eq_none] at h1 h2
      obtain ⟨ver, hv⟩ := Option.ne_none_iff_exists'.mp h1
      obtain ⟨nm, hn⟩ := Option.ne_none_iff_exists'.mp h2
      simp [readManifest, hv, hn, h3, ManifestField.key]
    · simp only [Option.some.injEq] at h
      subst h
      rw [Option.isNone_iff_eq_none] at h4
      simp only [Option.isNone_iff_eq_none] at h1 h2 h3
      obtain ⟨ver, hv⟩ := Option.ne_none_iff_exists'.mp h1
      obtain ⟨nm, hn⟩ := Option.ne_none_iff_exists'.mp h2
      obtain ⟨d, hd⟩ := Option.ne_none_iff_exists'.mp h3
      simp [readManifest, hv, hn, hd, h4, ManifestField.key]
  exact ⟨hrm, by simp [Wix.run, hrm]⟩

/-- Witness for C3: a manifest whose `authors` array is empty makes `run`
fail with `Error.Manifest "authors"` and no stage spawned. -/
theorem manifest_missing_field_witness :
    firstMissing emptyAuthorsManifest = some ManifestField.authors ∧
    Wix.run Wix.new emptyAuthorsManifest envAllOk =
      (Except.error (Error.Manifest "authors"), []) :=
  ⟨rfl,
   (manifest_missing_field emptyAuthorsManifest ManifestField.authors
      Wix.new envAllOk rfl).2⟩

/-- C5: on a manifest whose four required fields are present, `readManifest`
succeeds even without a `bin` table, the binary name falls back to the
package name when the `bin.name` override is absent or wrong-typed, and a
present string override wins. -/
theorem bin_name_fallback (v : Value) (h : firstMissing v = none) :
    ∃ f, readManifest v = Except.ok f ∧
      (bin_override v = none → f.binName = f.name) ∧
      (∀ s, bin_override v = some s → f.binName = s) := by
  obtain ⟨ver, nm, d, a, hv, hn, hd, ha, hok⟩ := readManifest_ok_of_complete v h
  refine ⟨_, hok, ?_, ?_⟩
  · intro hbo
    show bin_name v nm = nm
    simp [bin_name, hbo]
  · intro s hbo
    show bin_name v nm = s
    simp [bin_name, hbo]

/-- Witness for C5: the example manifest has no `bin` table and its binary
name equals its package name. -/
theorem bin_name_fallback_witness :
    firstMissing exampleManifest = none ∧
    ∃ f, readManifest exampleManifest = Except.ok f ∧
      (bin_override exampleManifest = none → f.binName = f.name) ∧
      (∀ s, bin_override exampleManifest = some s → f.binName = s) :=
  ⟨rfl, bin_name_fallback exampleManifest rfl⟩

/-- C6: with `sign` disabled the sign stage is never spawned, the result is
unchanged by the signing tool's would-be outcome, and the run succeeds as
soon as build and compile do not fail and link exits successfully. -/
theorem sign_stage_skipped (w : Wix) (v : Value) (env : StageEnv)
    (h : w.sign = false) :
    Stage.sign ∉ (Wix.run w v env).2 ∧
    (∀ b, Wix.run w v env = Wix.run w v (env.setStage Stage.sign b)) ∧
    (∀ fields, readManifest v = Except.ok fields →
      env.build ≠ some false → env.compile ≠ some false → env.link = some true →
      Wix.run w v env = (Except.ok (), [Stage.build, Stage.compile, Stage.link])) := by
  refine ⟨?_, ?_, ?_⟩
  · unfold Wix.run
    cases hrm : readManifest v with
    | error e => exact List.not_mem_nil _
    | ok f => exact runPipeline_no_sign w env h
  · intro b
    unfold Wix.run
    cases hrm : readManifest v with
    | error e => rfl
    | ok f => exact runPipeline_sign_irrelevant w env b h
  · intro fields hm hb hc hl
    have hr : Wix.run w v env = w.runPipeline env := by
      simp [Wix.run, hm]
    rw [hr]
    exact runPipeline_ok_after_link w env h hb hc hl

/-- Witness for C6: a fresh `Wix` (sign disabled) over the example manifest
with all processes succeeding: the sign stage is absent from the trace and
the run succeeds right after link. -/
theorem sign_stage_skipped_witness :
    Wix.new.sign = false ∧
    Stage.sign ∉ (Wix.run Wix.new exampleManifest envAllOk).2 ∧
    Wix.run Wix.new exampleManifest envAllOk =
      (Except.ok (), [Stage.build, Stage.compile, Stage.link]) := by
  have h := sign_stage_skipped Wix.new exampleManifest envAllOk rfl
  exact ⟨rfl, h.1, h.2.2 exampleFields rfl (by decide) (by decide) rfl⟩

end CargoWix
